import Mathlib

/-!
Verification development for the auth service of the blog microservice
backend: a shallow embedding of the session orchestrator
(`internal/application/services/auth_service.go`), the Redis-backed token
repository (`internal/infrastructure/redis/token_repository.go`), the JWT
manager (`pkg/jwt`, two-argument `NewManager` variant) and the auth error
table (`internal/application/errors`), together with theorems about the
token lifecycle: single-use state and exchange codes, refresh rotation,
logout breadth, blacklist ordering and TTLs, the codec round-trip, and the
HTTP status mapping.

Conventions of the embedding:
* `time.Time` / `time.Duration` are modelled as `Nat` seconds (the JWT
  library truncates to second precision via `jwt.NewNumericDate`).
  The several `time.Now()` calls inside one request handler are modelled
  as a single `now` parameter for the request.
* Redis is modelled as association lists of key/entry pairs where an entry
  carries its absolute expiry instant; a key is readable strictly before
  its expiry instant, matching Redis TTL semantics.
* JWT strings are modelled as an inductive of either an unparseable raw
  string or a signed record carrying the algorithm tag, the payload and
  the signing key; a signature verifies exactly when the keys coincide.
* Store and signing operations that can only fail on infrastructure
  errors (network, marshalling) are modelled as total: the theorems are
  about the logic layer over a functioning store.
-/

namespace BlogAuth

/-! ## Redis model: maps of entries with absolute expiry -/

/-- One Redis value together with the absolute instant at which its key
expires (set time plus TTL). -/
structure RedisEntry (α : Type) where
  value : α
  expireAt : Nat
deriving DecidableEq, Repr

/-- A Redis keyspace: an association list from keys to entries. -/
abbrev RMap (κ α : Type) := List (κ × RedisEntry α)

/-- First entry stored under a key, dead or alive. -/
def rlookup {κ α : Type} [DecidableEq κ] (m : RMap κ α) (k : κ) : Option (RedisEntry α) :=
  match m with
  | [] => none
  | (k1, e) :: rest => if k1 = k then some e else rlookup rest k

/-- Redis `GET` at instant `now`: the value if the key exists and has not
expired. -/
def rget {κ α : Type} [DecidableEq κ] (m : RMap κ α) (now : Nat) (k : κ) : Option α :=
  match rlookup m k with
  | some e => if now < e.expireAt then some e.value else none
  | none => none

/-- Redis `SET k v EX ttl` issued at some instant: replaces any previous
entry under `k` and records the absolute expiry. -/
def rset {κ α : Type} [DecidableEq κ] (m : RMap κ α) (k : κ) (v : α) (expireAt : Nat) :
    RMap κ α :=
  (k, ⟨v, expireAt⟩) :: m.filter (fun p => decide ¬(p.1 = k))

/-- Redis `DEL k`. -/
def rdel {κ α : Type} [DecidableEq κ] (m : RMap κ α) (k : κ) : RMap κ α :=
  m.filter (fun p => decide ¬(p.1 = k))

theorem rlookup_filter_of_true {κ α : Type} [DecidableEq κ]
    (m : RMap κ α) (q : κ × RedisEntry α → Bool) (k : κ)
    (h : ∀ e, q (k, e) = true) :
    rlookup (m.filter q) k = rlookup m k := by
  induction m with
  | nil => rfl
  | cons a rest ih =>
    obtain ⟨k1, e1⟩ := a
    by_cases hk : k1 = k
    · subst hk
      simp [List.filter, h e1, rlookup]
    · cases hq : q (k1, e1) with
      | true => simp [List.filter, hq, rlookup, hk, ih]
      | false => simp [List.filter, hq, rlookup, hk, ih]

theorem rlookup_filter_of_false {κ α : Type} [DecidableEq κ]
    (m : RMap κ α) (q : κ × RedisEntry α → Bool) (k : κ)
    (h : ∀ e, (k, e) ∈ m → q (k, e) = false) :
    rlookup (m.filter q) k = none := by
  induction m with
  | nil => rfl
  | cons a rest ih =>
    obtain ⟨k1, e1⟩ := a
    by_cases hk : k1 = k
    · subst hk
      have hq : q (k1, e1) = false := h e1 (List.mem_cons_self _ _)
      simp only [List.filter, hq]
      exact ih (fun e he => h e (List.mem_cons_of_mem _ he))
    · cases hq : q (k1, e1) with
      | true =>
        simp only [List.filter, hq, rlookup, hk, if_false]
        exact ih (fun e he => h e (List.mem_cons_of_mem _ he))
      | false =>
        simp only [List.filter, hq]
        exact ih (fun e he => h e (List.mem_cons_of_mem _ he))

theorem rlookup_rset_self {κ α : Type} [DecidableEq κ]
    (m : RMap κ α) (k : κ) (v : α) (t : Nat) :
    rlookup (rset m k v t) k = some ⟨v, t⟩ := by
  simp [rset, rlookup]

theorem rlookup_rset_ne {κ α : Type} [DecidableEq κ]
    (m : RMap κ α) (k k2 : κ) (v : α) (t : Nat) (h : k2 ≠ k) :
    rlookup (rset m k v t) k2 = rlookup m k2 := by
  simp only [rset, rlookup, h.symm, if_false]
  exact rlookup_filter_of_true m _ k2 (fun e => by simp [h])

theorem rlookup_rdel_self {κ α : Type} [DecidableEq κ] (m : RMap κ α) (k : κ) :
    rlookup (rdel m k) k = none :=
  rlookup_filter_of_false m _ k (fun e _ => by simp)

theorem rlookup_rdel_ne {κ α : Type} [DecidableEq κ] (m : RMap κ α) (k k2 : κ) (h : k2 ≠ k) :
    rlookup (rdel m k) k2 = rlookup m k2 :=
  rlookup_filter_of_true m _ k2 (fun e => by simp [h])

theorem rget_rdel_self {κ α : Type} [DecidableEq κ] (m : RMap κ α) (now : Nat) (k : κ) :
    rget (rdel m k) now k = none := by
  simp [rget, rlookup_rdel_self]

theorem rget_rset_self {κ α : Type} [DecidableEq κ]
    (m : RMap κ α) (now : Nat) (k : κ) (v : α) (t : Nat) :
    rget (rset m k v t) now k = if now < t then some v else none := by
  simp [rget, rlookup_rset_self]

/-! ## JWT manager (`pkg/jwt/jwt.go`, two-argument `NewManager` variant) -/

/-- Claims carried by every session token.

Modelled from the spec: the `entities.TokenClaims` declaration itself is
not among the provided sources; its three fields (subject id, subject
email, token class) are fixed by `§3 TokenClaims` of the spec and by every
construction site (`pkg/jwt` `GenerateToken` / `ValidateToken`,
`AuthService.generateTokenPair`). -/
structure TokenClaims where
  userID : String
  email : String
  type : String
deriving DecidableEq, Repr

/-- Payload of a signed token: the custom claims plus the registered
claims set by `Manager.GenerateToken` (iat, exp, nbf, iss, sub). -/
structure JwtPayload where
  userID : String
  email : String
  type : String
  issuedAt : Nat
  expiresAt : Nat
  notBefore : Nat
  issuer : String
  subject : String
deriving DecidableEq, Repr

/-- A token string: either an arbitrary non-token string or a compact
signed token with its algorithm header, payload, and the key it was
signed with (signature verification succeeds exactly when the verifier
holds the same symmetric key). -/
inductive TokenStr where
  | raw (s : String)
  | signed (alg : String) (payload : JwtPayload) (key : String)
deriving DecidableEq, Repr

/-- Expiry instant of a token string (`exp` of the payload; a raw string
carries none). -/
def tokenExp : TokenStr → Nat
  | .raw _ => 0
  | .signed _ p _ => p.expiresAt

/-- The JWT manager (`jwt.NewManager(secret, issuer)`); the allowed
algorithm list is fixed to HS256. -/
structure Manager where
  secret : String
  issuer : String
deriving Repr

/-- Manager.GenerateToken: signs the claims with HS256 and the manager
secret, setting `iat = nbf = now`, `exp = now + ttl`, issuer hard-coded to
"auth-service" and subject to the user id. -/
def Manager.GenerateToken (m : Manager) (tc : TokenClaims) (ttl : Nat) (now : Nat) : TokenStr :=
  .signed "HS256"
    { userID := tc.userID
      email := tc.email
      type := tc.type
      issuedAt := now
      expiresAt := now + ttl
      notBefore := now
      issuer := "auth-service"
      subject := tc.userID } m.secret

/-- Manager.ValidateToken: parse (raw strings fail), check the algorithm
is HS256, the signature (same symmetric key), the registered claims as
`golang-jwt/v4` does (`now < exp`, `iat ≤ now`, `nbf ≤ now`), and the
issuer against the configured issuer; on success return the custom
claims. -/
def Manager.ValidateToken (m : Manager) (t : TokenStr) (now : Nat) : Option TokenClaims :=
  match t with
  | .raw _ => none
  | .signed alg p key =>
    if alg = "HS256" ∧ key = m.secret ∧ now < p.expiresAt ∧ p.issuedAt ≤ now ∧
        p.notBefore ≤ now ∧ p.issuer = m.issuer
    then some { userID := p.userID, email := p.email, type := p.type }
    else none

theorem validateToken_lt_exp {m : Manager} {t : TokenStr} {now : Nat} {c : TokenClaims}
    (h : m.ValidateToken t now = some c) : now < tokenExp t := by
  cases t with
  | raw s => simp [Manager.ValidateToken] at h
  | signed alg p key =>
    simp only [Manager.ValidateToken] at h
    split at h
    case isTrue hcond => exact hcond.2.2.1
    case isFalse => exact absurd h (by simp)

theorem validateToken_claims_agree {m : Manager} {t : TokenStr} {n1 n2 : Nat}
    {c1 c2 : TokenClaims}
    (h1 : m.ValidateToken t n1 = some c1) (h2 : m.ValidateToken t n2 = some c2) :
    c1 = c2 := by
  cases t with
  | raw s => simp [Manager.ValidateToken] at h1
  | signed alg p key =>
    simp only [Manager.ValidateToken] at h1 h2
    split at h1
    · split at h2
      · rw [Option.some_inj] at h1 h2; rw [← h1, ← h2]
      · exact absurd h2 (by simp)
    · exact absurd h1 (by simp)

/-! ## Domain entities (`internal/domain/entities`) -/

/-- GoogleUserInfo (`internal/domain/entities/user.go`). -/
structure GoogleUserInfo where
  id : String
  email : String
  name : String
  picture : String
  verifiedEmail : Bool
  givenName : String
  familyName : String
  locale : String
deriving DecidableEq, Repr

/-- GoogleUserInfo.IsValid: id and email non-empty and the email
verified. -/
def GoogleUserInfo.IsValid (u : GoogleUserInfo) : Bool :=
  u.id != "" && u.email != "" && u.verifiedEmail

/-- Server-side record stored under a token string.

Modelled from the spec: the `entities.StoredToken` declaration itself is
not among the provided sources; its fields (subject id, subject email,
issued-at, expires-at) are fixed by `§3 StoredToken` of the spec and by
the construction site in `AuthService.storeTokens`. -/
structure StoredToken where
  userID : String
  email : String
  createdAt : Nat
  expiresAt : Nat
deriving DecidableEq, Repr

/-- A freshly minted token pair.

Modelled from the spec: the `entities.TokenPair` declaration itself is not
among the provided sources; its fields are fixed by the construction site
in `AuthService.generateTokenPair` and the DTO it is copied into. -/
structure TokenPair where
  accessToken : TokenStr
  refreshToken : TokenStr
  tokenType : String
  expiresIn : Nat
  expiresAt : Nat
deriving DecidableEq, Repr

/-- Identity summary returned to the client (`dto.UserInfo`). -/
structure UserInfo where
  id : String
  email : String
  name : String
  picture : String
deriving DecidableEq, Repr

/-- Result of `AuthService.ValidateToken` (`dto.TokenValidationResponse`). -/
structure TokenValidationResponse where
  valid : Bool
  userID : String
  email : String
deriving DecidableEq, Repr

/-- Response of `AuthService.ExchangeAuthCode`. -/
structure ExchangeAuthCodeResponse where
  user : UserInfo
  tokens : TokenPair
deriving DecidableEq, Repr

/-- Response of `AuthService.RefreshToken`. -/
structure RefreshTokenResponse where
  user : UserInfo
  tokens : TokenPair
deriving DecidableEq, Repr

/-! ## Error taxonomy (`internal/application/errors/errors.go`) -/

/-- The auth error variables, one constructor per `Err...` variable. -/
inductive AuthErr where
  | invalidGoogleCode
  | invalidRefreshToken
  | invalidAccessToken
  | invalidTokenType
  | tokenNotFound
  | tokenBlacklisted
  | tokenGeneration
  | tokenStorage
  | tokenValidation
  | tokenDeletion
  | invalidRequest
  | serviceUnavailable
deriving DecidableEq, Repr

/-- Machine-readable code string of each auth error. -/
def AuthErr.code : AuthErr → String
  | .invalidGoogleCode => "INVALID_GOOGLE_CODE"
  | .invalidRefreshToken => "INVALID_REFRESH_TOKEN"
  | .invalidAccessToken => "INVALID_ACCESS_TOKEN"
  | .invalidTokenType => "INVALID_TOKEN_TYPE"
  | .tokenNotFound => "TOKEN_NOT_FOUND"
  | .tokenBlacklisted => "TOKEN_BLACKLISTED"
  | .tokenGeneration => "TOKEN_GENERATION_FAILED"
  | .tokenStorage => "TOKEN_STORAGE_FAILED"
  | .tokenValidation => "TOKEN_VALIDATION_FAILED"
  | .tokenDeletion => "TOKEN_DELETION_FAILED"
  | .invalidRequest => "INVALID_REQUEST"
  | .serviceUnavailable => "SERVICE_UNAVAILABLE"

/-- HTTP status attached to each auth error by `NewAuthError` in
`internal/application/errors/errors.go` (401 = StatusUnauthorized, 400 =
StatusBadRequest, 500 = StatusInternalServerError, 503 =
StatusServiceUnavailable). -/
def AuthErr.statusCode : AuthErr → Nat
  | .invalidGoogleCode => 401
  | .invalidRefreshToken => 401
  | .invalidAccessToken => 401
  | .invalidTokenType => 400
  | .tokenNotFound => 401
  | .tokenBlacklisted => 401
  | .tokenGeneration => 500
  | .tokenStorage => 500
  | .tokenValidation => 500
  | .tokenDeletion => 500
  | .invalidRequest => 400
  | .serviceUnavailable => 503

/-- Whether an operation outcome is a success. -/
def isOkResult {α : Type} : Except AuthErr α → Bool
  | .ok _ => true
  | .error _ => false

/-! ## Token repository
(`internal/infrastructure/redis/token_repository.go`) -/

/-- Key of a staged exchange code (`authCodeKey`). -/
def authCodeKey (authCode : String) : String := "auth:code:" ++ authCode

/-- The Redis keyspaces used by the repository. Access tokens, refresh
tokens and blacklist entries live under the disjoint prefixes
`auth:access:`, `auth:refresh:` and `auth:blacklist:`, modelled as three
separate maps keyed by the token string. -/
structure Store where
  states : RMap String String
  authCodes : RMap String GoogleUserInfo
  accessTokens : RMap TokenStr StoredToken
  refreshTokens : RMap TokenStr StoredToken
  blacklist : RMap TokenStr String
deriving DecidableEq, Repr

/-- TokenRepository.StoreState: `SET key state EX ttl`. -/
def Store.StoreState (st : Store) (key state : String) (ttl now : Nat) : Store :=
  { st with states := rset st.states key state (now + ttl) }

/-- TokenRepository.GetAndDeleteState: atomic pipeline `GET key; DEL key`:
returns the live value if any; the key is deleted either way. -/
def Store.GetAndDeleteState (st : Store) (now : Nat) (key : String) :
    Option String × Store :=
  (rget st.states now key, { st with states := rdel st.states key })

/-- TokenRepository.StoreAuthCode: marshals the user info and issues
`SET auth:code:<code> <json> EX ttl`. -/
def Store.StoreAuthCode (st : Store) (authCode : String) (u : GoogleUserInfo)
    (ttl now : Nat) : Store :=
  { st with authCodes := rset st.authCodes (authCodeKey authCode) u (now + ttl) }

/-- TokenRepository.GetAndDeleteAuthCode: atomic pipeline
`GET auth:code:<code>; DEL auth:code:<code>`. -/
def Store.GetAndDeleteAuthCode (st : Store) (now : Nat) (authCode : String) :
    Option GoogleUserInfo × Store :=
  (rget st.authCodes now (authCodeKey authCode),
   { st with authCodes := rdel st.authCodes (authCodeKey authCode) })

/-- TokenRepository.StoreAccessToken. -/
def Store.StoreAccessToken (st : Store) (token : TokenStr) (data : StoredToken)
    (ttl now : Nat) : Store :=
  { st with accessTokens := rset st.accessTokens token data (now + ttl) }

/-- TokenRepository.StoreRefreshToken. -/
def Store.StoreRefreshToken (st : Store) (token : TokenStr) (data : StoredToken)
    (ttl now : Nat) : Store :=
  { st with refreshTokens := rset st.refreshTokens token data (now + ttl) }

/-- TokenRepository.GetTokenData: try the access key first, then the
refresh key. -/
def Store.GetTokenData (st : Store) (now : Nat) (token : TokenStr) :
    Option StoredToken :=
  match rget st.accessTokens now token with
  | some data => some data
  | none => rget st.refreshTokens now token

/-- TokenRepository.DeleteUserTokens: scans `KEYS auth:*:*` and deletes
every key whose value unmarshals to a `StoredToken` with the given
subject id. Access and refresh entries decode faithfully; blacklist
values (bare strings) fail to unmarshal and are skipped; staged exchange
codes decode with an absent `user_id` field (the `GoogleUserInfo` JSON
has no such key), so they are wiped exactly when the subject id is the
empty string. -/
def Store.DeleteUserTokens (st : Store) (userID : String) : Store :=
  { st with
    accessTokens := st.accessTokens.filter (fun p => decide ¬(p.2.value.userID = userID))
    refreshTokens := st.refreshTokens.filter (fun p => decide ¬(p.2.value.userID = userID))
    authCodes := if userID = "" then [] else st.authCodes }

/-- TokenRepository.IsTokenBlacklisted: `EXISTS auth:blacklist:<token>`. -/
def Store.IsTokenBlacklisted (st : Store) (now : Nat) (token : TokenStr) : Bool :=
  (rget st.blacklist now token).isSome

/-- TokenRepository.BlacklistToken:
`SET auth:blacklist:<token> "blacklisted" EX ttl`. -/
def Store.BlacklistToken (st : Store) (token : TokenStr) (ttl now : Nat) : Store :=
  { st with blacklist := rset st.blacklist token "blacklisted" (now + ttl) }

/-! ## Session orchestrator
(`internal/application/services/auth_service.go`) -/

/-- JWT configuration (`internal/config/config.go`, variant with an
issuer): secret, access TTL in minutes, refresh TTL in hours, issuer
(default `auth-service`). -/
structure JWTConfig where
  secret : String
  accessTokenTTL : Nat
  refreshTokenTTL : Nat
  issuer : String
deriving Repr

/-- The auth service with its collaborators: the JWT config and the
identity provider adapter. The adapter
(`oauthProvider.ExchangeCodeForToken`) is external network code; it is
modelled as a function from authorization codes to the identity it
returns, `none` standing for any of its hard failures (non-2xx response,
network error, malformed payload). -/
structure AuthEnv where
  config : JWTConfig
  exchangeCodeForToken : String → Option GoogleUserInfo

/-- The JWT manager built by `NewAuthService` via
`jwt.NewManager(jwtConfig.Secret, jwtConfig.Issuer)`. -/
def AuthEnv.mgr (env : AuthEnv) : Manager :=
  { secret := env.config.secret, issuer := env.config.issuer }

/-- Access token lifetime in seconds:
`time.Duration(config.AccessTokenTTL) * time.Minute`. -/
def accessTTLsec (env : AuthEnv) : Nat := env.config.accessTokenTTL * 60

/-- Refresh token lifetime in seconds:
`time.Duration(config.RefreshTokenTTL) * time.Hour`. -/
def refreshTTLsec (env : AuthEnv) : Nat := env.config.refreshTokenTTL * 3600

/-- AuthService.GetGoogleAuthURL: mints a fresh state nonce (the
`freshState` parameter models `uuid.New().String()`), stores it under
`oauth:state:<state>` for 10 minutes, and returns it (the provider URL
construction is deterministic in the state and carries no further
lifecycle content). -/
def getGoogleAuthURL (env : AuthEnv) (st : Store) (now : Nat) (freshState : String) :
    String × Store :=
  let stateKey := "oauth:state:" ++ freshState
  (freshState, st.StoreState stateKey freshState 600 now)

/-- AuthService.HandleGoogleCallback: consume the stored state (absence or
mismatch fails like a bad code), call the adapter, validate the returned
identity, then stage it under a fresh exchange code (the `freshAuthCode`
parameter models `uuid.New().String()`) for 5 minutes. The pair's second
component is the store after the call, errors included (the state is
consumed even on failure). -/
def handleGoogleCallback (env : AuthEnv) (st : Store) (now : Nat)
    (state code freshAuthCode : String) : Except AuthErr String × Store :=
  let stateKey := "oauth:state:" ++ state
  let consumed := st.GetAndDeleteState now stateKey
  let st1 := consumed.2
  match consumed.1 with
  | none => (.error .invalidGoogleCode, st1)
  | some storedState =>
    if storedState ≠ state then (.error .invalidGoogleCode, st1)
    else
      match env.exchangeCodeForToken code with
      | none => (.error .invalidGoogleCode, st1)
      | some userInfo =>
        if ¬userInfo.IsValid then (.error .invalidGoogleCode, st1)
        else (.ok freshAuthCode, st1.StoreAuthCode freshAuthCode userInfo 300 now)

/-- AuthService.generateTokenPair: one access token (access TTL minutes)
and one refresh token (refresh TTL hours) for the same subject,
`ExpiresIn`/`ExpiresAt` taken from the access token lifetime. -/
def generateTokenPair (env : AuthEnv) (userInfo : GoogleUserInfo) (now : Nat) : TokenPair :=
  let accessToken := env.mgr.GenerateToken
    { userID := userInfo.id, email := userInfo.email, type := "access" }
    (accessTTLsec env) now
  let refreshToken := env.mgr.GenerateToken
    { userID := userInfo.id, email := userInfo.email, type := "refresh" }
    (refreshTTLsec env) now
  { accessToken := accessToken
    refreshToken := refreshToken
    tokenType := "Bearer"
    expiresIn := accessTTLsec env
    expiresAt := now + accessTTLsec env }

/-- AuthService.storeTokens: one `StoredToken` record (whose `ExpiresAt`
is the pair's access-token expiry) persisted under the access token with
the access TTL and under the refresh token with the refresh TTL. -/
def storeTokens (env : AuthEnv) (st : Store) (pair : TokenPair)
    (userInfo : GoogleUserInfo) (now : Nat) : Store :=
  let data : StoredToken :=
    { userID := userInfo.id, email := userInfo.email
      createdAt := now, expiresAt := pair.expiresAt }
  let st1 := st.StoreAccessToken pair.accessToken data (accessTTLsec env) now
  st1.StoreRefreshToken pair.refreshToken data (refreshTTLsec env) now

/-- AuthService.ExchangeAuthCode: consume the staged exchange code
(absence or expiry fails as an invalid code), mint a token pair for the
staged identity and persist it. -/
def exchangeAuthCode (env : AuthEnv) (st : Store) (now : Nat) (authCode : String) :
    Except AuthErr ExchangeAuthCodeResponse × Store :=
  let consumed := st.GetAndDeleteAuthCode now authCode
  let st1 := consumed.2
  match consumed.1 with
  | none => (.error .invalidGoogleCode, st1)
  | some userInfo =>
    let pair := generateTokenPair env userInfo now
    let st2 := storeTokens env st1 pair userInfo now
    (.ok { user := { id := userInfo.id, email := userInfo.email
                     name := userInfo.name, picture := userInfo.picture }
           tokens := pair }, st2)

/-- The subject rebuilt from a stored record during refresh
(`&entities.GoogleUserInfo{ID: ..., Email: ...}`; every other field is
the Go zero value). -/
def refreshUserInfo (stored : StoredToken) : GoogleUserInfo :=
  { id := stored.userID, email := stored.email, name := "", picture := ""
    verifiedEmail := false, givenName := "", familyName := "", locale := "" }

/-- AuthService.RefreshToken: verify cryptographically, require the
refresh class, require a stored record, require not blacklisted; then
mint a new pair, blacklist the old refresh token for the full configured
refresh lifetime and persist the new pair. -/
def refreshToken (env : AuthEnv) (st : Store) (now : Nat) (token : TokenStr) :
    Except AuthErr RefreshTokenResponse × Store :=
  match env.mgr.ValidateToken token now with
  | none => (.error .invalidRefreshToken, st)
  | some claims =>
    if claims.type ≠ "refresh" then (.error .invalidTokenType, st)
    else
      match st.GetTokenData now token with
      | none => (.error .tokenNotFound, st)
      | some stored =>
        if st.IsTokenBlacklisted now token then (.error .tokenBlacklisted, st)
        else
          let userInfo := refreshUserInfo stored
          let pair := generateTokenPair env userInfo now
          let st1 := st.BlacklistToken token (refreshTTLsec env) now
          let st2 := storeTokens env st1 pair userInfo now
          (.ok { user := { id := stored.userID, email := stored.email
                           name := "", picture := "" }
                 tokens := pair }, st2)

/-- AuthService.Logout: verify the presented token cryptographically (any
class), delete every stored token of its subject, blacklist the presented
token for the configured access lifetime. -/
def logout (env : AuthEnv) (st : Store) (now : Nat) (token : TokenStr) :
    Except AuthErr Unit × Store :=
  match env.mgr.ValidateToken token now with
  | none => (.error .invalidAccessToken, st)
  | some claims =>
    let st1 := st.DeleteUserTokens claims.userID
    let st2 := st1.BlacklistToken token (accessTTLsec env) now
    (.ok (), st2)

/-- AuthService.ValidateToken: blacklist check first, then cryptographic
verification, then the access class, then the stored record. Read-only:
the store is unchanged. -/
def validateToken (env : AuthEnv) (st : Store) (now : Nat) (token : TokenStr) :
    Except AuthErr TokenValidationResponse :=
  if st.IsTokenBlacklisted now token then .error .tokenBlacklisted
  else
    match env.mgr.ValidateToken token now with
    | none => .error .invalidAccessToken
    | some claims =>
      if claims.type ≠ "access" then .error .invalidTokenType
      else
        match st.GetTokenData now token with
        | none => .error .tokenNotFound
        | some _ =>
          .ok { valid := true, userID := claims.userID, email := claims.email }

/-! ## Concrete fixtures used by witnesses and counterexamples -/

/-- A verified external identity, as in the spec's happy-path scenario. -/
def sampleUser : GoogleUserInfo :=
  { id := "u1", email := "a@b.com", name := "Alice", picture := ""
    verifiedEmail := true, givenName := "", familyName := "", locale := "" }

/-- The same identity with `verified_email:false`. -/
def unverifiedUser : GoogleUserInfo :=
  { sampleUser with verifiedEmail := false }

/-- Default deployment configuration: access TTL 15 minutes, refresh TTL
168 hours, issuer `auth-service`. -/
def cfg0 : JWTConfig :=
  { secret := "test-secret", accessTokenTTL := 15, refreshTokenTTL := 168
    issuer := "auth-service" }

/-- Service environment whose adapter accepts exactly the code
`validcode` and returns the verified sample identity. -/
def env0 : AuthEnv :=
  { config := cfg0
    exchangeCodeForToken := fun c => if c = "validcode" then some sampleUser else none }

/-- Service environment whose adapter accepts `validcode` but returns an
identity with an unverified email. -/
def envUnverified : AuthEnv :=
  { config := cfg0
    exchangeCodeForToken := fun c => if c = "validcode" then some unverifiedUser else none }

/-- An empty store. -/
def emptyStore : Store :=
  { states := [], authCodes := [], accessTokens := [], refreshTokens := [], blacklist := [] }

/-- A store holding exactly the freshly issued state `s1` (as left by
`getGoogleAuthURL` at instant 0). -/
def storeWithState : Store :=
  (getGoogleAuthURL env0 emptyStore 0 "s1").2

/-! ## C6: token codec round-trip -/

/-- C6 (amended): for every claims record, secret and issuance instant,
and every ttl > 0, verifying a token immediately after issuing it with
that ttl succeeds and returns exactly the claims that were issued, for a
manager configured with the default issuer `auth-service` (the issuer
`GenerateToken` hard-codes). At ttl = 0 the token is already expired at
the instant of issuance (`golang-jwt/v4` requires `now < exp` strictly),
see the counterexample. -/
theorem token_roundtrip (secret : String) (tc : TokenClaims) (ttl now : Nat)
    (h : 0 < ttl) :
    Manager.ValidateToken ⟨secret, "auth-service"⟩
      (Manager.GenerateToken ⟨secret, "auth-service"⟩ tc ttl now) now = some tc := by
  have hlt : now < now + ttl := Nat.lt_add_of_pos_right h
  simp [Manager.GenerateToken, Manager.ValidateToken, hlt]

/-- Witness for `token_roundtrip` at the default access TTL (900 s). -/
theorem token_roundtrip_witness :
    0 < 900 ∧
    Manager.ValidateToken ⟨"test-secret", "auth-service"⟩
      (Manager.GenerateToken ⟨"test-secret", "auth-service"⟩
        ⟨"u1", "a@b.com", "access"⟩ 900 0) 0 = some ⟨"u1", "a@b.com", "access"⟩ :=
  ⟨by decide, token_roundtrip "test-secret" ⟨"u1", "a@b.com", "access"⟩ 900 0 (by decide)⟩

/-- C6 counterexample: with ttl = 0 — allowed by the claim's "ttl ≥ 0" —
the round-trip fails: the freshly issued token does not verify even at
the instant of issuance, because expiry verification requires the current
instant to be strictly before `exp = now + 0`. -/
theorem token_roundtrip_zero_ttl_cex :
    Manager.ValidateToken ⟨"test-secret", "auth-service"⟩
      (Manager.GenerateToken ⟨"test-secret", "auth-service"⟩
        ⟨"u1", "a@b.com", "access"⟩ 0 7) 7 = none := by
  decide

/-! ## C9: HTTP status of the error taxonomy -/

/-- C9 counterexample: the claim maps every infrastructure failure to
HTTP 503; in the code `ErrTokenGeneration` (and likewise storage,
validation, deletion) carries `http.StatusInternalServerError` = 500, not
503. -/
theorem infra_error_status_cex :
    AuthErr.statusCode .tokenGeneration = 500 ∧
    AuthErr.statusCode .tokenStorage = 500 ∧
    ¬AuthErr.statusCode .tokenGeneration = 503 := by
  decide

/-- C9 (amended): the authentication failures (invalid/expired token of
either class, not-found, blacklisted, invalid code) carry 401; malformed
requests and the wrong token class carry 400; token
generation/storage/validation/deletion failures carry 500; only
`ServiceUnavailable` carries 503. -/
theorem error_status_table :
    AuthErr.statusCode .invalidGoogleCode = 401 ∧
    AuthErr.statusCode .invalidRefreshToken = 401 ∧
    AuthErr.statusCode .invalidAccessToken = 401 ∧
    AuthErr.statusCode .tokenNotFound = 401 ∧
    AuthErr.statusCode .tokenBlacklisted = 401 ∧
    AuthErr.statusCode .invalidTokenType = 400 ∧
    AuthErr.statusCode .invalidRequest = 400 ∧
    AuthErr.statusCode .tokenGeneration = 500 ∧
    AuthErr.statusCode .tokenStorage = 500 ∧
    AuthErr.statusCode .tokenValidation = 500 ∧
    AuthErr.statusCode .tokenDeletion = 500 ∧
    AuthErr.statusCode .serviceUnavailable = 503 := by
  decide

/-! ## C8: invalid external identity rejected at the callback -/

/-- C8: with a matching stored state and a code the adapter accepts, the
callback still fails with the opaque invalid-code error whenever the
returned identity is invalid (empty id, empty email, or unverified
email). -/
theorem unverified_identity_rejected (env : AuthEnv) (st : Store) (now : Nat)
    (s code fresh : String) (u : GoogleUserInfo)
    (hstate : rget st.states now ("oauth:state:" ++ s) = some s)
    (hadapter : env.exchangeCodeForToken code = some u)
    (hinvalid : u.IsValid = false) :
    (handleGoogleCallback env st now s code fresh).1 = .error .invalidGoogleCode := by
  simp [handleGoogleCallback, Store.GetAndDeleteState, hstate, hadapter, hinvalid]

/-- Witness for `unverified_identity_rejected`: correct state and
accepted code, identity with `verified:false`. -/
theorem unverified_identity_rejected_witness :
    rget storeWithState.states 5 ("oauth:state:" ++ "s1") = some "s1" ∧
    envUnverified.exchangeCodeForToken "validcode" = some unverifiedUser ∧
    unverifiedUser.IsValid = false ∧
    (handleGoogleCallback envUnverified storeWithState 5 "s1" "validcode" "e1").1 =
      .error .invalidGoogleCode :=
  ⟨by decide, by decide, by decide,
   unverified_identity_rejected envUnverified storeWithState 5 "s1" "validcode" "e1"
     unverifiedUser (by decide) (by decide) (by decide)⟩

/-! ## C2: single-use CSRF state -/

theorem handleGoogleCallback_states (env : AuthEnv) (st : Store) (now : Nat)
    (s code fresh : String) :
    (handleGoogleCallback env st now s code fresh).2.states =
      rdel st.states ("oauth:state:" ++ s) := by
  simp only [handleGoogleCallback, Store.GetAndDeleteState, Store.StoreAuthCode]
  repeat' (first | rfl | split)

theorem handleGoogleCallback_accessTokens (env : AuthEnv) (st : Store) (now : Nat)
    (s code fresh : String) :
    (handleGoogleCallback env st now s code fresh).2.accessTokens = st.accessTokens := by
  simp only [handleGoogleCallback, Store.GetAndDeleteState, Store.StoreAuthCode]
  repeat' (first | rfl | split)

theorem handleGoogleCallback_refreshTokens (env : AuthEnv) (st : Store) (now : Nat)
    (s code fresh : String) :
    (handleGoogleCallback env st now s code fresh).2.refreshTokens = st.refreshTokens := by
  simp only [handleGoogleCallback, Store.GetAndDeleteState, Store.StoreAuthCode]
  repeat' (first | rfl | split)

theorem handleGoogleCallback_no_state (env : AuthEnv) (st : Store) (now : Nat)
    (s code fresh : String)
    (hnone : rget st.states now ("oauth:state:" ++ s) = none) :
    (handleGoogleCallback env st now s code fresh).1 = .error .invalidGoogleCode := by
  simp [handleGoogleCallback, Store.GetAndDeleteState, hnone]

/-- C2: once a `Handle-callback(s, code)` call has consumed the stored
state for `s` (in particular after a successful call), a second callback
with the same `s` fails with the invalid-code error; likewise a state
that was never issued, or whose stored value mismatches the supplied one,
fails with the same error. -/
theorem oauth_state_single_use (env : AuthEnv) (st : Store) (now : Nat)
    (s code fresh : String) :
    (∀ ac st1, handleGoogleCallback env st now s code fresh = (.ok ac, st1) →
       ∀ now2 code2 fresh2,
         (handleGoogleCallback env st1 now2 s code2 fresh2).1 =
           .error .invalidGoogleCode)
    ∧ (rget st.states now ("oauth:state:" ++ s) = none →
         (handleGoogleCallback env st now s code fresh).1 = .error .invalidGoogleCode)
    ∧ (∀ v, rget st.states now ("oauth:state:" ++ s) = some v → v ≠ s →
         (handleGoogleCallback env st now s code fresh).1 = .error .invalidGoogleCode) := by
  refine ⟨?_, ?_, ?_⟩
  · intro ac st1 h now2 code2 fresh2
    have hsnd : (handleGoogleCallback env st now s code fresh).2 = st1 :=
      congrArg Prod.snd h
    have hst : st1.states = rdel st.states ("oauth:state:" ++ s) := by
      rw [← hsnd]; exact handleGoogleCallback_states env st now s code fresh
    exact handleGoogleCallback_no_state env st1 now2 s code2 fresh2
      (by rw [hst]; exact rget_rdel_self _ _ _)
  · exact handleGoogleCallback_no_state env st now s code fresh
  · intro v hsome hv
    simp [handleGoogleCallback, Store.GetAndDeleteState, hsome, hv]

/-- Witness for `oauth_state_single_use`: a successful callback on the
issued state `s1` followed by a replay of `s1`, and the never-issued
state `wrong_state`. -/
theorem oauth_state_single_use_witness :
    (handleGoogleCallback env0
        (handleGoogleCallback env0 storeWithState 5 "s1" "validcode" "e1").2
        6 "s1" "validcode" "e2").1 = .error .invalidGoogleCode ∧
    (handleGoogleCallback env0 emptyStore 5 "wrong_state" "validcode" "e1").1 =
      .error .invalidGoogleCode :=
  ⟨(oauth_state_single_use env0 storeWithState 5 "s1" "validcode" "e1").1
     "e1" (handleGoogleCallback env0 storeWithState 5 "s1" "validcode" "e1").2
     (by rfl) 6 "validcode" "e2",
   (oauth_state_single_use env0 emptyStore 5 "wrong_state" "validcode" "e1").2.1
     (by decide)⟩

/-! ## C3: single-use exchange code -/

theorem rget_of_expired {κ α : Type} [DecidableEq κ] {m : RMap κ α} {k : κ}
    {e : RedisEntry α} {now : Nat}
    (h : rlookup m k = some e) (hexp : e.expireAt ≤ now) :
    rget m now k = none := by
  simp [rget, h, Nat.not_lt_of_le hexp]

theorem exchangeAuthCode_authCodes (env : AuthEnv) (st : Store) (now : Nat)
    (c : String) :
    (exchangeAuthCode env st now c).2.authCodes = rdel st.authCodes (authCodeKey c) := by
  simp only [exchangeAuthCode, Store.GetAndDeleteAuthCode]
  cases hg : rget st.authCodes now (authCodeKey c) with
  | none => rfl
  | some u => rfl

theorem exchangeAuthCode_no_code (env : AuthEnv) (st : Store) (now : Nat)
    (c : String)
    (hnone : rget st.authCodes now (authCodeKey c) = none) :
    (exchangeAuthCode env st now c).1 = .error .invalidGoogleCode := by
  simp [exchangeAuthCode, Store.GetAndDeleteAuthCode, hnone]

/-- C3: once a first `Exchange-auth-code(c)` call has consumed the staged
exchange code (in particular after a successful call), a second call with
the same `c` fails with the invalid-code error class; an absent or
expired code fails the same way; and of the callback/exchange steps only
the exchange step touches the token stores — the callback stages an
exchange code but mints no session tokens. -/
theorem exchange_code_single_use (env : AuthEnv) (st : Store) (now : Nat)
    (c s code fresh : String) :
    (∀ resp st1, exchangeAuthCode env st now c = (.ok resp, st1) →
       ∀ now2, (exchangeAuthCode env st1 now2 c).1 = .error .invalidGoogleCode)
    ∧ (rget st.authCodes now (authCodeKey c) = none →
         (exchangeAuthCode env st now c).1 = .error .invalidGoogleCode)
    ∧ (∀ e, rlookup st.authCodes (authCodeKey c) = some e → e.expireAt ≤ now →
         (exchangeAuthCode env st now c).1 = .error .invalidGoogleCode)
    ∧ (handleGoogleCallback env st now s code fresh).2.accessTokens = st.accessTokens
    ∧ (handleGoogleCallback env st now s code fresh).2.refreshTokens = st.refreshTokens := by
  refine ⟨?_, ?_, ?_, ?_, ?_⟩
  · intro resp st1 h now2
    have hsnd : (exchangeAuthCode env st now c).2 = st1 := congrArg Prod.snd h
    have hst : st1.authCodes = rdel st.authCodes (authCodeKey c) := by
      rw [← hsnd]; exact exchangeAuthCode_authCodes env st now c
    exact exchangeAuthCode_no_code env st1 now2 c
      (by rw [hst]; exact rget_rdel_self _ _ _)
  · exact exchangeAuthCode_no_code env st now c
  · intro e hsome hexp
    exact exchangeAuthCode_no_code env st now c (rget_of_expired hsome hexp)
  · exact handleGoogleCallback_accessTokens env st now s code fresh
  · exact handleGoogleCallback_refreshTokens env st now s code fresh

/-- Witness for `exchange_code_single_use`: a staged code `e1` is
exchanged successfully, then replayed; an absent code fails. -/
theorem exchange_code_single_use_witness :
    (exchangeAuthCode env0
        (exchangeAuthCode env0
          (handleGoogleCallback env0 storeWithState 5 "s1" "validcode" "e1").2
          6 "e1").2
        7 "e1").1 = .error .invalidGoogleCode ∧
    (exchangeAuthCode env0 emptyStore 5 "e9").1 = .error .invalidGoogleCode :=
  ⟨(exchange_code_single_use env0
      (handleGoogleCallback env0 storeWithState 5 "s1" "validcode" "e1").2
      6 "e1" "" "" "").1
     { user := { id := "u1", email := "a@b.com", name := "Alice", picture := "" }
       tokens := generateTokenPair env0 sampleUser 6 }
     (exchangeAuthCode env0
        (handleGoogleCallback env0 storeWithState 5 "s1" "validcode" "e1").2 6 "e1").2
     (by rfl) 7,
   (exchange_code_single_use env0 emptyStore 5 "e9" "" "" "").2.1 (by decide)⟩

/-! ## Inversion of the successful refresh, exchange and logout paths -/

theorem refreshToken_ok_inv {env : AuthEnv} {st : Store} {now : Nat} {token : TokenStr}
    {resp : RefreshTokenResponse} {st1 : Store}
    (h : refreshToken env st now token = (.ok resp, st1)) :
    ∃ claims stored,
      env.mgr.ValidateToken token now = some claims ∧ claims.type = "refresh" ∧
      st.GetTokenData now token = some stored ∧
      st.IsTokenBlacklisted now token = false ∧
      resp = { user := { id := stored.userID, email := stored.email
                         name := "", picture := "" }
               tokens := generateTokenPair env (refreshUserInfo stored) now } ∧
      st1 = storeTokens env (st.BlacklistToken token (refreshTTLsec env) now)
              (generateTokenPair env (refreshUserInfo stored) now)
              (refreshUserInfo stored) now := by
  simp only [refreshToken] at h
  cases hv : env.mgr.ValidateToken token now with
  | none => rw [hv] at h; simp at h
  | some claims =>
    rw [hv] at h
    by_cases ht : claims.type = "refresh"
    · simp only [ht, ne_eq, not_true_eq_false, if_false] at h
      cases hg : st.GetTokenData now token with
      | none => rw [hg] at h; simp at h
      | some stored =>
        rw [hg] at h
        cases hb : st.IsTokenBlacklisted now token with
        | true => rw [hb] at h; simp at h
        | false =>
          rw [hb] at h
          simp only [Bool.false_eq_true, if_false, Prod.mk.injEq,
            Except.ok.injEq] at h
          exact ⟨claims, stored, rfl, ht, rfl, rfl, h.1.symm, h.2.symm⟩
    · simp [ht] at h

theorem exchangeAuthCode_ok_inv {env : AuthEnv} {st : Store} {now : Nat} {c : String}
    {resp : ExchangeAuthCodeResponse} {st1 : Store}
    (h : exchangeAuthCode env st now c = (.ok resp, st1)) :
    ∃ u, rget st.authCodes now (authCodeKey c) = some u ∧
      resp = { user := { id := u.id, email := u.email
                         name := u.name, picture := u.picture }
               tokens := generateTokenPair env u now } ∧
      st1 = storeTokens env { st with authCodes := rdel st.authCodes (authCodeKey c) }
              (generateTokenPair env u now) u now := by
  simp only [exchangeAuthCode, Store.GetAndDeleteAuthCode] at h
  cases hg : rget st.authCodes now (authCodeKey c) with
  | none => rw [hg] at h; simp at h
  | some u =>
    rw [hg] at h
    simp only [Prod.mk.injEq, Except.ok.injEq] at h
    exact ⟨u, rfl, h.1.symm, h.2.symm⟩

theorem logout_ok_inv {env : AuthEnv} {st : Store} {now : Nat} {token : TokenStr}
    {st1 : Store}
    (h : logout env st now token = (.ok (), st1)) :
    ∃ claims, env.mgr.ValidateToken token now = some claims ∧
      st1 = (st.DeleteUserTokens claims.userID).BlacklistToken token
              (accessTTLsec env) now := by
  simp only [logout] at h
  cases hv : env.mgr.ValidateToken token now with
  | none => rw [hv] at h; simp at h
  | some claims =>
    rw [hv] at h
    simp only [Prod.mk.injEq] at h
    exact ⟨claims, rfl, h.2.symm⟩

/-! ## C4: blacklist check ordering in validate and refresh -/

/-- A store whose blacklist holds exactly the unparseable token string
`bad`, revoked until instant 100. -/
def storeBlk : Store :=
  { emptyStore with blacklist := [(TokenStr.raw "bad", ⟨"blacklisted", 100⟩)] }

/-- C4 counterexample: the claim puts the blacklist check before
cryptographic verification in the refresh path as well; but for a
blacklisted token that fails cryptographic verification, `RefreshToken`
answers with the verification error `ErrInvalidRefreshToken`, not
`ErrTokenBlacklisted` — the code verifies first and consults the
blacklist only after the store lookup. -/
theorem blacklist_order_refresh_cex :
    Store.IsTokenBlacklisted storeBlk 5 (TokenStr.raw "bad") = true ∧
    (refreshToken env0 storeBlk 5 (TokenStr.raw "bad")).1 =
      .error .invalidRefreshToken ∧
    AuthErr.invalidRefreshToken ≠ AuthErr.tokenBlacklisted :=
  ⟨rfl, rfl, by decide⟩

/-- C4 (amended): in `Validate-token` the blacklist check does come
first — a blacklisted token is always answered with `TokenBlacklisted` —
while in `Refresh-token` cryptographic verification, the class check and
the store lookup run before the blacklist check; in both operations a
token present in the blacklist never succeeds, even when it is
cryptographically valid. -/
theorem blacklisted_token_never_succeeds (env : AuthEnv) (st : Store) (now : Nat)
    (t : TokenStr) (h : st.IsTokenBlacklisted now t = true) :
    validateToken env st now t = .error .tokenBlacklisted ∧
    isOkResult (refreshToken env st now t).1 = false := by
  constructor
  · simp [validateToken, h]
  · simp only [refreshToken, h]
    repeat' (first | rfl | split)

/-- Witness for `blacklisted_token_never_succeeds` on a blacklisted (and
cryptographically invalid) token. -/
theorem blacklisted_token_never_succeeds_witness :
    Store.IsTokenBlacklisted storeBlk 5 (TokenStr.raw "bad") = true ∧
    validateToken env0 storeBlk 5 (TokenStr.raw "bad") = .error .tokenBlacklisted ∧
    isOkResult (refreshToken env0 storeBlk 5 (TokenStr.raw "bad")).1 = false :=
  ⟨by decide,
   (blacklisted_token_never_succeeds env0 storeBlk 5 (TokenStr.raw "bad") (by decide)).1,
   (blacklisted_token_never_succeeds env0 storeBlk 5 (TokenStr.raw "bad") (by decide)).2⟩

/-! ## C7: TTL of blacklist entries -/

/-- A refresh token as the system issues it at instant 0 under the
default configuration (`exp` = 604800 s, the 168-hour refresh TTL). -/
def refreshTok : TokenStr :=
  Manager.GenerateToken env0.mgr ⟨"u1", "a@b.com", "refresh"⟩ (refreshTTLsec env0) 0

/-- A store holding the stored-token record of `refreshTok`. -/
def storeWithRefresh : Store :=
  { emptyStore with
    refreshTokens := [(refreshTok, ⟨⟨"u1", "a@b.com", 0, 900⟩, 604800⟩)] }

/-- C7 counterexample: refreshing `refreshTok` (natural lifetime ending
at 604800) at instant 1000 succeeds and creates a blacklist entry that
expires at 1000 + 604800 = 605800: the blacklist TTL is the full
configured refresh lifetime (604800 s), which exceeds the token's
remaining natural lifetime (603800 s), and the entry outlives the
token — contradicting "TTL equal to (and never exceeding) the remaining
natural lifetime". -/
theorem blacklist_ttl_exceeds_remaining_cex :
    isOkResult (refreshToken env0 storeWithRefresh 1000 refreshTok).1 = true ∧
    rlookup (refreshToken env0 storeWithRefresh 1000 refreshTok).2.blacklist
      refreshTok = some ⟨"blacklisted", 605800⟩ ∧
    tokenExp refreshTok = 604800 ∧
    ¬(605800 ≤ 604800) :=
  ⟨rfl, rfl, rfl, by decide⟩

/-- C7 (amended): whenever the orchestrator blacklists a token, the entry
is created with the full configured lifetime of the operation's token
class — the refresh TTL for the old refresh token during `Refresh-token`,
the access TTL for the presented token during `Logout` — counted from the
moment of blacklisting, not with the token's remaining natural lifetime
(for a system-issued refresh token the refresh-path TTL is at least the
remaining lifetime, and strictly exceeds it once any time has passed
since issuance). -/
theorem blacklist_ttl_configured_lifetime (env : AuthEnv) (st : Store) (now : Nat) :
    (∀ r resp st1, refreshToken env st now r = (.ok resp, st1) →
       rlookup st1.blacklist r = some ⟨"blacklisted", now + refreshTTLsec env⟩)
    ∧ (∀ t st2, logout env st now t = (.ok (), st2) →
       rlookup st2.blacklist t = some ⟨"blacklisted", now + accessTTLsec env⟩) := by
  constructor
  · intro r resp st1 h
    obtain ⟨claims, stored, _, _, _, _, _, hst1⟩ := refreshToken_ok_inv h
    subst hst1
    simp [storeTokens, Store.StoreAccessToken, Store.StoreRefreshToken,
      Store.BlacklistToken, rlookup_rset_self]
  · intro t st2 h
    obtain ⟨claims, _, hst2⟩ := logout_ok_inv h
    subst hst2
    simp [Store.BlacklistToken, rlookup_rset_self]

/-- Witness for `blacklist_ttl_configured_lifetime` at the concrete
refresh of `refreshTok` at instant 1000. -/
theorem blacklist_ttl_configured_lifetime_witness :
    rlookup (refreshToken env0 storeWithRefresh 1000 refreshTok).2.blacklist
      refreshTok = some ⟨"blacklisted", 1000 + refreshTTLsec env0⟩ :=
  (blacklist_ttl_configured_lifetime env0 storeWithRefresh 1000).1 refreshTok
    { user := { id := "u1", email := "a@b.com", name := "", picture := "" }
      tokens := generateTokenPair env0 (refreshUserInfo ⟨"u1", "a@b.com", 0, 900⟩) 1000 }
    (refreshToken env0 storeWithRefresh 1000 refreshTok).2
    (by rfl)

/-! ## C10: expiry recorded in the persisted token records -/

/-- C10: in both token-minting operations, the `StoredToken` record
persisted under the new refresh token carries an `expires-at` equal to
the access token's expiry (issuance instant plus access TTL), while the
Redis entry of the refresh key itself expires after the refresh-token
lifetime. -/
theorem stored_token_expiry_access_window (env : AuthEnv) (st : Store) (now : Nat) :
    (∀ c resp st1, exchangeAuthCode env st now c = (.ok resp, st1) →
       rlookup st1.refreshTokens resp.tokens.refreshToken =
         some ⟨{ userID := resp.user.id, email := resp.user.email
                 createdAt := now, expiresAt := now + accessTTLsec env },
               now + refreshTTLsec env⟩)
    ∧ (∀ r resp st1, refreshToken env st now r = (.ok resp, st1) →
       rlookup st1.refreshTokens resp.tokens.refreshToken =
         some ⟨{ userID := resp.user.id, email := resp.user.email
                 createdAt := now, expiresAt := now + accessTTLsec env },
               now + refreshTTLsec env⟩) := by
  constructor
  · intro c resp st1 h
    obtain ⟨u, _, hresp, hst1⟩ := exchangeAuthCode_ok_inv h
    subst hresp hst1
    simp [storeTokens, Store.StoreAccessToken, Store.StoreRefreshToken,
      generateTokenPair, rlookup_rset_self]
  · intro r resp st1 h
    obtain ⟨claims, stored, _, _, _, _, hresp, hst1⟩ := refreshToken_ok_inv h
    subst hresp hst1
    simp [storeTokens, Store.StoreAccessToken, Store.StoreRefreshToken,
      generateTokenPair, refreshUserInfo, rlookup_rset_self]

/-- Witness for `stored_token_expiry_access_window` at the concrete
exchange of the staged code `e1` at instant 6 (access expiry 906, refresh
entry expiry 604806). -/
theorem stored_token_expiry_access_window_witness :
    rlookup (exchangeAuthCode env0
        (handleGoogleCallback env0 storeWithState 5 "s1" "validcode" "e1").2
        6 "e1").2.refreshTokens
      (generateTokenPair env0 sampleUser 6).refreshToken =
      some ⟨{ userID := "u1", email := "a@b.com"
              createdAt := 6, expiresAt := 6 + accessTTLsec env0 },
            6 + refreshTTLsec env0⟩ :=
  (stored_token_expiry_access_window env0
      (handleGoogleCallback env0 storeWithState 5 "s1" "validcode" "e1").2 6).1
    "e1"
    { user := { id := "u1", email := "a@b.com", name := "Alice", picture := "" }
      tokens := generateTokenPair env0 sampleUser 6 }
    (exchangeAuthCode env0
        (handleGoogleCallback env0 storeWithState 5 "s1" "validcode" "e1").2 6 "e1").2
    (by rfl)

/-! ## C1: refresh rotation invalidates the old refresh token -/

/-- C1: if `Refresh-token(r1)` succeeds at instant `now` (producing the
rotated pair) and `r1` is a token whose expiry lies within one configured
refresh lifetime of `now` — true of every refresh token the system
issues, whose `exp` is its issuance instant plus the refresh TTL — then a
subsequent `Refresh-token(r1)` at any instant `now2` at which `r1` still
verifies cryptographically fails with `TokenBlacklisted` or
`TokenNotFound`: the old refresh token is no longer usable. -/
theorem refresh_rotation_invalidation (env : AuthEnv) (st : Store) (now now2 : Nat)
    (r1 : TokenStr) (resp : RefreshTokenResponse) (st1 : Store) (c2 : TokenClaims)
    (h : refreshToken env st now r1 = (.ok resp, st1))
    (hv2 : env.mgr.ValidateToken r1 now2 = some c2)
    (hexp : tokenExp r1 ≤ now + refreshTTLsec env) :
    (refreshToken env st1 now2 r1).1 = .error .tokenBlacklisted ∨
    (refreshToken env st1 now2 r1).1 = .error .tokenNotFound := by
  obtain ⟨c, stored, hv1, htype, hg, hb, hresp, hst1⟩ := refreshToken_ok_inv h
  have hceq : c2 = c := validateToken_claims_agree hv2 hv1
  have htype2 : c2.type = "refresh" := by rw [hceq]; exact htype
  have hlt : now2 < tokenExp r1 := validateToken_lt_exp hv2
  have hlt2 : now2 < now + refreshTTLsec env := lt_of_lt_of_le hlt hexp
  have hblk : st1.IsTokenBlacklisted now2 r1 = true := by
    subst hst1
    simp [storeTokens, Store.StoreAccessToken, Store.StoreRefreshToken,
      Store.BlacklistToken, Store.IsTokenBlacklisted, rget, rlookup_rset_self, hlt2]
  simp only [refreshToken, hv2, htype2, ne_eq, not_true_eq_false, if_false]
  cases hg2 : st1.GetTokenData now2 r1 with
  | none => right; rfl
  | some d => left; simp [hblk]

/-- Witness for `refresh_rotation_invalidation`: the system-issued
`refreshTok` is rotated at instant 1000 and replayed at instant 2000. -/
theorem refresh_rotation_invalidation_witness :
    (refreshToken env0 (refreshToken env0 storeWithRefresh 1000 refreshTok).2
        2000 refreshTok).1 = .error .tokenBlacklisted ∨
    (refreshToken env0 (refreshToken env0 storeWithRefresh 1000 refreshTok).2
        2000 refreshTok).1 = .error .tokenNotFound :=
  refresh_rotation_invalidation env0 storeWithRefresh 1000 2000 refreshTok
    { user := { id := "u1", email := "a@b.com", name := "", picture := "" }
      tokens := generateTokenPair env0 (refreshUserInfo ⟨"u1", "a@b.com", 0, 900⟩) 1000 }
    (refreshToken env0 storeWithRefresh 1000 refreshTok).2
    ⟨"u1", "a@b.com", "refresh"⟩
    (by rfl) (by decide) (by decide)

/-! ## C5: logout invalidates every token of the subject -/

theorem tokens_gone_after_delete (st : Store) (uid : String) (u : TokenStr)
    (hacc : ∀ e, (u, e) ∈ st.accessTokens → e.value.userID = uid)
    (href : ∀ e, (u, e) ∈ st.refreshTokens → e.value.userID = uid)
    (t : TokenStr) (ttl now n : Nat) :
    Store.GetTokenData ((st.DeleteUserTokens uid).BlacklistToken t ttl now) n u = none := by
  have h1 : rlookup ((st.DeleteUserTokens uid).BlacklistToken t ttl now).accessTokens u
      = none := by
    simp only [Store.DeleteUserTokens, Store.BlacklistToken]
    exact rlookup_filter_of_false _ _ _ (fun e he => by simp [hacc e he])
  have h2 : rlookup ((st.DeleteUserTokens uid).BlacklistToken t ttl now).refreshTokens u
      = none := by
    simp only [Store.DeleteUserTokens, Store.BlacklistToken]
    exact rlookup_filter_of_false _ _ _ (fun e he => by simp [href e he])
  simp [Store.GetTokenData, rget, h1, h2]

theorem ops_fail_without_stored (env : AuthEnv) (st : Store) (n : Nat) (u : TokenStr)
    (hgd : st.GetTokenData n u = none) :
    isOkResult (validateToken env st n u) = false ∧
    isOkResult (refreshToken env st n u).1 = false := by
  constructor
  · simp only [validateToken, hgd]
    repeat' (first | rfl | split)
  · simp only [refreshToken, hgd]
    repeat' (first | rfl | split)

/-- C5: when `Logout(t)` runs at instant `now` with a token `t` that
still verifies for subject `c`, it succeeds, and afterwards every token
`u` whose stored records (access or refresh) all belong to that subject
fails both `Validate-token` and `Refresh-token`, at every later instant:
logout invalidates all of the subject's sessions, not only the one bound
to `t`. -/
theorem logout_breadth (env : AuthEnv) (st : Store) (now : Nat) (t : TokenStr)
    (c : TokenClaims) (hc : env.mgr.ValidateToken t now = some c)
    (u : TokenStr)
    (hacc : ∀ e, (u, e) ∈ st.accessTokens → e.value.userID = c.userID)
    (href : ∀ e, (u, e) ∈ st.refreshTokens → e.value.userID = c.userID) :
    (logout env st now t).1 = .ok () ∧
    ∀ now2,
      isOkResult (validateToken env (logout env st now t).2 now2 u) = false ∧
      isOkResult (refreshToken env (logout env st now t).2 now2 u).1 = false := by
  have hlg : logout env st now t =
      (.ok (), (st.DeleteUserTokens c.userID).BlacklistToken t (accessTTLsec env) now) := by
    simp [logout, hc]
  refine ⟨by rw [hlg], ?_⟩
  intro now2
  rw [hlg]
  exact ops_fail_without_stored env _ now2 u
    (tokens_gone_after_delete st c.userID u hacc href t (accessTTLsec env) now now2)

/-- An access token of subject `u1` issued at instant 1000 under the
default configuration. -/
def accTok : TokenStr :=
  Manager.GenerateToken env0.mgr ⟨"u1", "a@b.com", "access"⟩ (accessTTLsec env0) 1000

/-- Witness for `logout_breadth`: logging out with the valid access token
`accTok` of `u1` at instant 1000 invalidates the independently issued
refresh token `refreshTok` of the same subject. -/
theorem logout_breadth_witness :
    isOkResult (validateToken env0
      (logout env0 storeWithRefresh 1000 accTok).2 2000 refreshTok) = false ∧
    isOkResult (refreshToken env0
      (logout env0 storeWithRefresh 1000 accTok).2 2000 refreshTok).1 = false :=
  (logout_breadth env0 storeWithRefresh 1000 accTok ⟨"u1", "a@b.com", "access"⟩
    (by decide) refreshTok
    (by intro e he; simp [storeWithRefresh, emptyStore] at he)
    (by
      intro e he
      simp only [storeWithRefresh, emptyStore, List.mem_singleton] at he
      rw [Prod.mk.injEq] at he
      rw [he.2])).2 2000

end BlogAuth
